import Mathlib

/-!
Verification development for the Pishgoo trading core
(`src/core/risk_manager.py`, `src/core/strategy.py`, `src/core/backtester.py`).

Shallow embedding conventions:
* Python floats are modelled as rationals (`ℚ`); all the arithmetic in the
  modelled code is exact (+, -, *, /, min, max, abs), so `ℚ` is faithful.
* Timestamps (pandas indices) are modelled as integers (seconds); the only
  arithmetic performed on them is subtraction and division by 3600.
* Strings that are only logged or returned as human-readable reasons are
  dropped; a validation result is modelled by its `valid` boolean.
* Python `min(a, b)` / boolean tests are spelled as `if _ then _ else _` so
  that concrete runs can be evaluated by `simp`/`norm_num`.
* `strategy.generate_signal`'s opinion-gathering phase (technical indicators,
  ML models, Prophet) is external to the core; it is modelled as the list of
  `Opinion`s collected, and the aggregation part of the function
  (strategy.py lines 114-157) is embedded exactly.
* The backtester's call to the strategy (through the temporarily swapped
  data-fetcher cache) is modelled as a parameter `sigf : List Bar → Signal`
  receiving the bar history `bars[0..i]` visible at bar `i`; the
  `try/except` around it is folded into `sigf` (a failing source yields the
  hold/0 signal).
-/

namespace Pishgoo

/-- Trading action: the `'buy' | 'sell' | 'hold'` strings of the source. -/
inductive Action where
  | buy
  | sell
  | hold
deriving DecidableEq, Repr

/-- One external source's vote inside `generate_signal`: an entry of the
parallel lists `signals` / `confidences` (strategy.py lines 58-112). -/
structure Opinion where
  action : Action
  confidence : ℚ
deriving DecidableEq, Repr

/-- The aggregated signal: the `action` / `confidence` fields of the dict
returned by `HybridAIStrategy.generate_signal` (vote counts and reason
strings omitted). -/
structure Signal where
  action : Action
  confidence : ℚ
deriving DecidableEq, Repr

/-- `buy_votes = signals.count('buy')` (strategy.py line 123). -/
def buyVotes (ops : List Opinion) : ℕ :=
  (ops.filter (fun o => if o.action = Action.buy then true else false)).length

/-- `sell_votes = signals.count('sell')` (strategy.py line 124). -/
def sellVotes (ops : List Opinion) : ℕ :=
  (ops.filter (fun o => if o.action = Action.sell then true else false)).length

/-- `hold_votes = signals.count('hold')` (strategy.py line 125). -/
def holdVotes (ops : List Opinion) : ℕ :=
  (ops.filter (fun o => if o.action = Action.hold then true else false)).length

/-- `avg_confidence = sum(confidences)/len(confidences) if confidences else 0.0`
(strategy.py line 129). -/
def avgConfidence (ops : List Opinion) : ℚ :=
  if ops.isEmpty then 0 else (ops.map (·.confidence)).sum / (ops.length : ℚ)

/-- The consensus branch of strategy.py lines 132-140: the plurality action
together with `signal_strength` (`winning_votes/total_votes`, and `0` on the
hold/tie branch). -/
def consensus (ops : List Opinion) : Action × ℚ :=
  if buyVotes ops > sellVotes ops ∧ buyVotes ops > holdVotes ops then
    (Action.buy, (buyVotes ops : ℚ) / (ops.length : ℚ))
  else if sellVotes ops > buyVotes ops ∧ sellVotes ops > holdVotes ops then
    (Action.sell, (sellVotes ops : ℚ) / (ops.length : ℚ))
  else
    (Action.hold, 0)

/-- `final_confidence = avg_confidence * signal_strength`
(strategy.py line 143). -/
def finalConfidence (ops : List Opinion) : ℚ :=
  avgConfidence ops * (consensus ops).2

/-- The aggregation part of `HybridAIStrategy.generate_signal`
(strategy.py lines 114-157), applied to the list of collected opinions:
empty list gives the `'No signals generated'` hold; otherwise plurality vote,
`final_confidence = avg_confidence * signal_strength`, and the action is
forced to hold when `final_confidence < confidence_threshold` (the returned
`confidence` is `final_confidence` on every non-empty path). -/
def generateSignal (threshold : ℚ) (ops : List Opinion) : Signal :=
  if ops.isEmpty then { action := Action.hold, confidence := 0 }
  else if finalConfidence ops < threshold then
    { action := Action.hold, confidence := finalConfidence ops }
  else
    { action := (consensus ops).1, confidence := finalConfidence ops }

/-- `HybridAIStrategy.should_execute_trade` (strategy.py lines 179-202):
false when `confidence < threshold` or `action == 'hold'`, true otherwise. -/
def shouldExecuteTrade (threshold : ℚ) (sig : Signal) : Bool :=
  if sig.confidence < threshold then false
  else if sig.action = Action.hold then false
  else true

/-- The risk configuration read by `RiskManager.__init__`
(risk_manager.py lines 21-23). -/
structure RiskConfig where
  stop_loss : ℚ
  take_profit : ℚ
  max_position_size : ℚ
deriving DecidableEq, Repr

/-- The defaults of `RiskManager.__init__`: SL 3%, TP 5%, cap 20%. -/
def defaultRiskConfig : RiskConfig :=
  { stop_loss := 3 / 100, take_profit := 5 / 100, max_position_size := 1 / 5 }

/-- `RiskManager.calculate_position_size` (risk_manager.py lines 26-45).
`risk_percent = risk_percent or self.max_position_size` treats both a missing
argument (`none`) and the falsy value `0` as the default cap; the result is
`min(balance * risk_percent, balance * max_position_size)` (Python `min(a, b)`
is `a if a <= b else b`).  `price` is accepted but never used by the source. -/
def calculate_position_size (cfg : RiskConfig) (balance price : ℚ)
    (risk_percent : Option ℚ) : ℚ :=
  let rp := match risk_percent with
    | none => cfg.max_position_size
    | some r => if r = 0 then cfg.max_position_size else r
  let _ := price
  if balance * rp ≤ balance * cfg.max_position_size then balance * rp
  else balance * cfg.max_position_size

/-- `RiskManager.validate_order` (risk_manager.py lines 47-85), reduced to its
`valid` boolean: fails when `required_balance > balance` (`amount*price` for a
buy, `amount` otherwise) or when `amount*price > balance*max_position_size`. -/
def validate_order (cfg : RiskConfig) (side : Action) (amount price balance : ℚ) :
    Bool :=
  let required := if side = Action.buy then amount * price else amount
  if required > balance then false
  else if amount * price > balance * cfg.max_position_size then false
  else true

/-- `RiskManager.calculate_stop_loss_price` (risk_manager.py lines 87-103). -/
def calculate_stop_loss_price (cfg : RiskConfig) (entry_price : ℚ)
    (side : Action) : ℚ :=
  if side = Action.buy then entry_price * (1 - cfg.stop_loss)
  else entry_price * (1 + cfg.stop_loss)

/-- `RiskManager.calculate_take_profit_price` (risk_manager.py lines 105-121). -/
def calculate_take_profit_price (cfg : RiskConfig) (entry_price : ℚ)
    (side : Action) : ℚ :=
  if side = Action.buy then entry_price * (1 + cfg.take_profit)
  else entry_price * (1 - cfg.take_profit)

/-- `RiskManager.check_stop_loss` (risk_manager.py lines 123-145). -/
def check_stop_loss (cfg : RiskConfig) (entry_price current_price : ℚ)
    (side : Action) : Bool :=
  let slp := calculate_stop_loss_price cfg entry_price side
  if side = Action.buy then
    if current_price ≤ slp then true else false
  else
    if slp ≤ current_price then true else false

/-- `RiskManager.check_take_profit` (risk_manager.py lines 147-169). -/
def check_take_profit (cfg : RiskConfig) (entry_price current_price : ℚ)
    (side : Action) : Bool :=
  let tpp := calculate_take_profit_price cfg entry_price side
  if side = Action.buy then
    if tpp ≤ current_price then true else false
  else
    if current_price ≤ tpp then true else false

/-- One OHLCV bar, restricted to the fields the backtester reads: its index
timestamp and its `'close'` column (backtester.py lines 72-73, 99, 101). -/
structure Bar where
  time : ℤ
  close : ℚ
deriving DecidableEq, Repr

/-- An open position, the dict built at backtester.py lines 140-150
(`symbol` and the stored originating `signal` are omitted: the backtester
only logs them or copies them into the trade record). -/
structure Position where
  id : ℕ
  side : Action
  entry_price : ℚ
  amount : ℚ
  entry_time : ℤ
  stop_loss : ℚ
  take_profit : ℚ
deriving DecidableEq, Repr

/-- A closed trade, the dict built at backtester.py lines 191-204. -/
structure Trade where
  id : ℕ
  side : Action
  entry_price : ℚ
  exit_price : ℚ
  amount : ℚ
  pnl : ℚ
  pnl_pct : ℚ
  entry_time : ℤ
  exit_time : ℤ
  duration : ℚ
deriving DecidableEq, Repr

/-- The mutable state of a `Backtester`: `balance`, `positions`, `trades`,
`equity_curve` (backtester.py lines 28-33). -/
structure State where
  balance : ℚ
  positions : List Position
  trades : List Trade
  equity : List ℚ
deriving DecidableEq, Repr

/-- The state after `__init__` / the reset at backtester.py lines 63-67. -/
def initState (initial_balance : ℚ) : State :=
  { balance := initial_balance, positions := [], trades := [],
    equity := [initial_balance] }

/-- The trade record built by `Backtester._close_position`
(backtester.py lines 184-204): PnL is `(exit-entry)*amount` for a buy and
`(entry-exit)*amount` otherwise, `pnl_pct = pnl/(entry_price*amount)*100`,
`duration` is the time difference in hours. -/
def closeTrade (p : Position) (exit_price : ℚ) (timestamp : ℤ) : Trade :=
  let pnl := if p.side = Action.buy then (exit_price - p.entry_price) * p.amount
    else (p.entry_price - exit_price) * p.amount
  { id := p.id, side := p.side, entry_price := p.entry_price,
    exit_price := exit_price, amount := p.amount, pnl := pnl,
    pnl_pct := pnl / (p.entry_price * p.amount) * 100,
    entry_time := p.entry_time, exit_time := timestamp,
    duration := ((timestamp - p.entry_time : ℤ) : ℚ) / 3600 }

/-- `Backtester._close_position` (backtester.py lines 182-207): credits
`balance += amount*exit_price + pnl`, appends the trade, and removes the
position from the open list (`self.positions.remove(position)` removes the
first element equal to it). -/
def closePosition (s : State) (p : Position) (exit_price : ℚ)
    (timestamp : ℤ) : State :=
  { s with
    balance := s.balance + p.amount * exit_price + (closeTrade p exit_price timestamp).pnl,
    trades := s.trades ++ [closeTrade p exit_price timestamp],
    positions := s.positions.erase p }

/-- `Backtester._check_exit_conditions` (backtester.py lines 157-180): first
collect every position whose stop loss or take profit triggers at the current
price, then close each collected position at that price. -/
def checkExitConditions (cfg : RiskConfig) (s : State) (current_price : ℚ)
    (timestamp : ℤ) : State :=
  let toClose := s.positions.filter (fun p =>
    check_stop_loss cfg p.entry_price current_price p.side ||
    check_take_profit cfg p.entry_price current_price p.side)
  toClose.foldl (fun st p => closePosition st p current_price timestamp) s

/-- `Backtester._execute_trade` (backtester.py lines 113-155): nothing happens
on a hold signal, a non-positive size, `cost > balance`, or a failed
validation; otherwise a position is appended (id `len(positions)+1`, stop
loss and take profit computed from the fill price) and `balance -= cost`. -/
def executeTrade (cfg : RiskConfig) (s : State) (sig : Signal) (price : ℚ)
    (timestamp : ℤ) : State :=
  if sig.action = Action.hold then s
  else
    let position_size := calculate_position_size cfg s.balance price none
    if position_size ≤ 0 then s
    else
      let cost := position_size * price
      if cost > s.balance then s
      else if validate_order cfg sig.action position_size price s.balance then
        { s with
          balance := s.balance - cost,
          positions := s.positions ++ [{
            id := s.positions.length + 1,
            side := sig.action,
            entry_price := price,
            amount := position_size,
            entry_time := timestamp,
            stop_loss := calculate_stop_loss_price cfg price sig.action,
            take_profit := calculate_take_profit_price cfg price sig.action }] }
      else s

/-- The unrealized-PnL sum of `Backtester._update_equity`
(backtester.py lines 215-220). -/
def unrealizedSum (positions : List Position) (current_price : ℚ) : ℚ :=
  (positions.map (fun p =>
    if p.side = Action.buy then (current_price - p.entry_price) * p.amount
    else (p.entry_price - current_price) * p.amount)).sum

/-- The equity value computed by `Backtester._update_equity`:
balance plus the unrealized PnL of all open positions. -/
def markToMarket (s : State) (current_price : ℚ) : ℚ :=
  s.balance + unrealizedSum s.positions current_price

/-- `Backtester._update_equity` (backtester.py lines 211-222): append the
marked-to-market equity to the equity curve. -/
def updateEquity (s : State) (current_price : ℚ) : State :=
  { s with equity := s.equity ++ [markToMarket s current_price] }

/-- The exit-check / signal / entry part of one loop iteration of
`run_backtest` (backtester.py lines 76-93), before the equity update:
`hist` is `df.iloc[:i+1]`, the bar history up to and including the current
bar, which is what the strategy sees through the swapped cache. -/
def tradePhase (cfg : RiskConfig) (threshold : ℚ) (sigf : List Bar → Signal)
    (hist : List Bar) (s : State) (b : Bar) : State :=
  let s1 := checkExitConditions cfg s b.close b.time
  let sig := sigf hist
  if shouldExecuteTrade threshold sig then executeTrade cfg s1 sig b.close b.time
  else s1

/-- One full iteration of the `run_backtest` loop (backtester.py lines
70-96): exit check, signal, conditional entry, then equity update. -/
def processBar (cfg : RiskConfig) (threshold : ℚ) (sigf : List Bar → Signal)
    (hist : List Bar) (s : State) (b : Bar) : State :=
  updateEquity (tradePhase cfg threshold sigf hist s b) b.close

/-- The `for i in range(50, len(df))` loop of `run_backtest`: `hist` holds the
bars already seen (`df.iloc[:i]`), `rest` the bars still to process; each bar
is processed with the history extended by the bar itself (`df.iloc[:i+1]`). -/
def runLoop (cfg : RiskConfig) (threshold : ℚ) (sigf : List Bar → Signal) :
    List Bar → List Bar → State → State
  | _, [], s => s
  | hist, b :: bs, s =>
    runLoop cfg threshold sigf (hist ++ [b]) bs
      (processBar cfg threshold sigf (hist ++ [b]) s b)

/-- The forced-liquidation loop of `run_backtest` (backtester.py lines
98-101), `for pos in self.positions: self._close_position(pos, ...)`: the list
iterator walks by increasing index over the list that `_close_position`
mutates (`remove`), so each iteration reads the element at the current index
of the current list, closes it, and advances the index.  The loop stops when
the index reaches the current length; since the index grows by one per
iteration and the length never grows, at most the initial length of the list
many iterations can run, so that initial length is used as fuel and the fuel
case is never the one that terminates the loop. -/
def forceCloseGo (exit_price : ℚ) (timestamp : ℤ) :
    ℕ → ℕ → State → State
  | 0, _, s => s
  | fuel + 1, i, s =>
    if h : i < s.positions.length then
      forceCloseGo exit_price timestamp fuel (i + 1)
        (closePosition s (s.positions.get ⟨i, h⟩) exit_price timestamp)
    else s

/-- Entry point of the forced-liquidation loop (backtester.py lines 98-101). -/
def forceClose (s : State) (exit_price : ℚ) (timestamp : ℤ) : State :=
  forceCloseGo exit_price timestamp s.positions.length 0 s

/-- The state of the `Backtester` when `run_backtest` (backtester.py lines
36-111) returns: with fewer than 50 bars the run aborts before the reset at
lines 63-67 and the state is the freshly initialized one; otherwise the state
is reset, every bar from index 50 on is processed, and the remaining open
positions are force-closed at the final bar's close and timestamp
(`df.iloc[-1]`, the last bar, which exists on this branch). -/
def runBacktestState (cfg : RiskConfig) (threshold : ℚ)
    (sigf : List Bar → Signal) (initial_balance : ℚ) (bars : List Bar) : State :=
  if bars.length < 50 then initState initial_balance
  else
    let sEnd := runLoop cfg threshold sigf (bars.take 50) (bars.drop 50)
      (initState initial_balance)
    forceClose sEnd (bars.getLastD { time := 0, close := 0 }).close
      (bars.getLastD { time := 0, close := 0 }).time

/-- The result dict of `run_backtest` (backtester.py lines 257-273), minus
the `sharpe_ratio` field, whose value involves a real-valued square root
(`sqrt(252)`) and is touched by no claim. -/
structure BacktestResult where
  total_return : ℚ
  total_pnl : ℚ
  initial_balance : ℚ
  final_balance : ℚ
  total_trades : ℕ
  winning_trades : ℕ
  losing_trades : ℕ
  win_rate : ℚ
  avg_win : ℚ
  avg_loss : ℚ
  profit_factor : ℚ
  max_drawdown : ℚ
  equity_curve : List ℚ
  trades : List Trade
deriving DecidableEq, Repr

/-- `Backtester._empty_results` (backtester.py lines 275-293). -/
def emptyResults (initial_balance : ℚ) : BacktestResult :=
  { total_return := 0, total_pnl := 0, initial_balance := initial_balance,
    final_balance := initial_balance, total_trades := 0, winning_trades := 0,
    losing_trades := 0, win_rate := 0, avg_win := 0, avg_loss := 0,
    profit_factor := 0, max_drawdown := 0, equity_curve := [initial_balance],
    trades := [] }

/-- `np.maximum.accumulate`: the running maximum of a list
(backtester.py line 246). -/
def runningMaxGo (m : ℚ) : List ℚ → List ℚ
  | [] => []
  | e :: es => max m e :: runningMaxGo (max m e) es

/-- Running maximum of the equity curve, seeded with its first element. -/
def runningMax : List ℚ → List ℚ
  | [] => []
  | e :: es => e :: runningMaxGo e es

/-- `np.min` of a list, with a default for the (unreachable) empty case. -/
def listMinD : List ℚ → ℚ → ℚ
  | [], d => d
  | x :: xs, _ => xs.foldl min x

/-- `Backtester._calculate_metrics` (backtester.py lines 224-273): with no
trades return `_empty_results`; otherwise compute the summary statistics over
the closed trades and the equity curve.  Note `losing_trades` and the
profit-factor denominator use `total_trades - winning_trades`, and
`final_balance` is the last equity value (the curve is non-empty whenever
this is called; `getLastD` carries the initial balance as an unreachable
default). -/
def calcMetrics (initial_balance : ℚ) (s : State) : BacktestResult :=
  if s.trades.isEmpty then emptyResults initial_balance
  else
    let final_equity := s.equity.getLastD initial_balance
    let total_return := (final_equity - initial_balance) / initial_balance * 100
    let total_trades := s.trades.length
    let wins := s.trades.filter (fun tr => if (0:ℚ) < tr.pnl then true else false)
    let losses := s.trades.filter (fun tr => if tr.pnl < (0:ℚ) then true else false)
    let winning_trades := wins.length
    let win_rate := if total_trades > 0 then
      (winning_trades : ℚ) / (total_trades : ℚ) * 100 else 0
    let avg_win := if winning_trades > 0 then
      (wins.map (·.pnl)).sum / (winning_trades : ℚ) else 0
    let avg_loss := if losses.length > 0 then
      |(losses.map (·.pnl)).sum / (losses.length : ℚ)| else 0
    let profit_factor := if avg_loss > 0 ∧ total_trades - winning_trades > 0 then
      avg_win * (winning_trades : ℚ) /
        (avg_loss * ((total_trades : ℚ) - (winning_trades : ℚ))) else 0
    let rmax := runningMax s.equity
    let drawdowns := List.zipWith (fun e m => (e - m) / m * 100) s.equity rmax
    let max_drawdown := |listMinD drawdowns 0|
    let total_pnl := (s.trades.map (·.pnl)).sum
    { total_return := total_return, total_pnl := total_pnl,
      initial_balance := initial_balance, final_balance := final_equity,
      total_trades := total_trades, winning_trades := winning_trades,
      losing_trades := total_trades - winning_trades, win_rate := win_rate,
      avg_win := avg_win, avg_loss := avg_loss, profit_factor := profit_factor,
      max_drawdown := max_drawdown, equity_curve := s.equity,
      trades := s.trades }

/-- `Backtester.run_backtest` (backtester.py lines 36-111): fewer than 50
bars gives `_empty_results`; otherwise the run is simulated and the metrics
are computed.  The body is wrapped in a catch-all `except` returning
`_empty_results`, so the function always returns a result dict and never
propagates an error. -/
def runBacktest (cfg : RiskConfig) (threshold : ℚ) (sigf : List Bar → Signal)
    (initial_balance : ℚ) (bars : List Bar) : BacktestResult :=
  if bars.length < 50 then emptyResults initial_balance
  else calcMetrics initial_balance
    (runBacktestState cfg threshold sigf initial_balance bars)

/-- If hold has strictly more votes than both buy and sell, the consensus
branch of `generate_signal` lands in the `else` arm with
`signal_strength = 0`. -/
lemma consensus_hold_of_plurality (ops : List Opinion)
    (hb : buyVotes ops < holdVotes ops) (hs : sellVotes ops < holdVotes ops) :
    consensus ops = (Action.hold, 0) := by
  unfold consensus
  rw [if_neg (by omega), if_neg (by omega)]

/-- Under a hold plurality the `final_confidence` is zero, because the
`signal_strength` factor is zero. -/
lemma finalConfidence_eq_zero_of_hold_plurality (ops : List Opinion)
    (hb : buyVotes ops < holdVotes ops) (hs : sellVotes ops < holdVotes ops) :
    finalConfidence ops = 0 := by
  rw [finalConfidence, consensus_hold_of_plurality ops hb hs, mul_zero]

/-- C2 (status code_bug): evaluating `calculate_position_size` at the claim's
failing input, balance 1,000,000 and price 100 with the default 0.2 cap: the
source returns `balance * max_position_size = 200000`, the quote value
itself, never divided by the entry price, although its own docstring promises
a "position size in base currency" and the claim expects 2000 base units. -/
theorem C2_position_size_is_quote_value :
    calculate_position_size defaultRiskConfig 1000000 100 none = 200000 := by
  norm_num [calculate_position_size, defaultRiskConfig]

/-- C3: whenever the close price exceeds `1/max_position_fraction` (5 at the
default cap 0.2) and the balance is positive, `_execute_trade` hits the
`cost > balance` guard (cost being `balance*cap*price`) and returns with the
state unchanged, whatever the signal. -/
theorem C3_high_price_blocks_entry (cfg : RiskConfig) (s : State) (sig : Signal)
    (price : ℚ) (timestamp : ℤ) (hb : 0 < s.balance)
    (hm : 0 < cfg.max_position_size) (hp : 1 / cfg.max_position_size < price) :
    executeTrade cfg s sig price timestamp = s := by
  by_cases hh : sig.action = Action.hold
  · simp [executeTrade, hh]
  · have hsize : calculate_position_size cfg s.balance price none
        = s.balance * cfg.max_position_size := by
      simp [calculate_position_size]
    have hpos : 0 < s.balance * cfg.max_position_size := mul_pos hb hm
    have h1 : 1 < price * cfg.max_position_size := (div_lt_iff₀ hm).mp hp
    have hcost : s.balance < s.balance * cfg.max_position_size * price := by
      nlinarith [mul_pos hb (sub_pos.mpr h1)]
    simp only [executeTrade, if_neg hh, hsize]
    rw [if_neg (not_le.mpr hpos), if_pos hcost]

/-- C3 witness: a concrete instance, price 6 > 5 with the default cap and a
positive balance; the entry attempt leaves the state untouched. -/
theorem C3_high_price_blocks_entry_witness :
    0 < (initState 1000).balance ∧
    0 < defaultRiskConfig.max_position_size ∧
    1 / defaultRiskConfig.max_position_size < (6 : ℚ) ∧
    executeTrade defaultRiskConfig (initState 1000)
      { action := Action.buy, confidence := 1 } 6 0 = initState 1000 :=
  ⟨by norm_num [initState], by norm_num [defaultRiskConfig],
   by norm_num [defaultRiskConfig],
   C3_high_price_blocks_entry defaultRiskConfig (initState 1000)
     { action := Action.buy, confidence := 1 } 6 0
     (by norm_num [initState]) (by norm_num [defaultRiskConfig])
     (by norm_num [defaultRiskConfig])⟩

/-- C4 counterexample: on the concrete opinion list
`[hold 0.9, hold 0.9, buy 0.9]`, hold wins the plurality (2 votes against 1
and 0) and every confidence is positive, yet `generate_signal` reports
confidence exactly 0 (the hold/tie branch zeroes `signal_strength`), so no
plurality-hold aggregate ever carries a non-zero confidence and confidence 0
is not confined to the "no opinions" path. -/
theorem C4_counterexample :
    holdVotes [⟨Action.hold, 9/10⟩, ⟨Action.hold, 9/10⟩, ⟨Action.buy, 9/10⟩] = 2 ∧
    buyVotes [⟨Action.hold, 9/10⟩, ⟨Action.hold, 9/10⟩, ⟨Action.buy, 9/10⟩] = 1 ∧
    sellVotes [⟨Action.hold, 9/10⟩, ⟨Action.hold, 9/10⟩, ⟨Action.buy, 9/10⟩] = 0 ∧
    generateSignal (7/10) [⟨Action.hold, 9/10⟩, ⟨Action.hold, 9/10⟩, ⟨Action.buy, 9/10⟩]
      = { action := Action.hold, confidence := 0 } := by
  refine ⟨by decide, by decide, by decide, ?_⟩
  have hb : buyVotes [⟨Action.hold, 9/10⟩, ⟨Action.hold, 9/10⟩, ⟨Action.buy, 9/10⟩]
      < holdVotes [⟨Action.hold, 9/10⟩, ⟨Action.hold, 9/10⟩, ⟨Action.buy, 9/10⟩] := by
    decide
  have hs : sellVotes [⟨Action.hold, 9/10⟩, ⟨Action.hold, 9/10⟩, ⟨Action.buy, 9/10⟩]
      < holdVotes [⟨Action.hold, 9/10⟩, ⟨Action.hold, 9/10⟩, ⟨Action.buy, 9/10⟩] := by
    decide
  simp [generateSignal, finalConfidence_eq_zero_of_hold_plurality _ hb hs,
    consensus_hold_of_plurality _ hb hs]

/-- C4 (status corrected, amended): whenever hold has strictly more votes
than both buy and sell, `generate_signal` returns action hold with
confidence exactly 0, for every threshold; a hold with non-zero confidence
can only come from the below-threshold path. -/
theorem C4_amended_hold_plurality_zero_confidence (thr : ℚ) (ops : List Opinion)
    (hb : buyVotes ops < holdVotes ops) (hs : sellVotes ops < holdVotes ops) :
    generateSignal thr ops = { action := Action.hold, confidence := 0 } := by
  have hf := finalConfidence_eq_zero_of_hold_plurality ops hb hs
  have hc := consensus_hold_of_plurality ops hb hs
  simp [generateSignal, hf, hc]

/-- C4 witness: the amended statement instantiated on the concrete
hold-plurality list `[hold 0.9, hold 0.9, buy 0.9]` at threshold 0.7. -/
theorem C4_amended_witness :
    buyVotes [⟨Action.hold, 9/10⟩, ⟨Action.hold, 9/10⟩, ⟨Action.buy, 9/10⟩]
      < holdVotes [⟨Action.hold, 9/10⟩, ⟨Action.hold, 9/10⟩, ⟨Action.buy, 9/10⟩] ∧
    sellVotes [⟨Action.hold, 9/10⟩, ⟨Action.hold, 9/10⟩, ⟨Action.buy, 9/10⟩]
      < holdVotes [⟨Action.hold, 9/10⟩, ⟨Action.hold, 9/10⟩, ⟨Action.buy, 9/10⟩] ∧
    generateSignal (7/10) [⟨Action.hold, 9/10⟩, ⟨Action.hold, 9/10⟩, ⟨Action.buy, 9/10⟩]
      = { action := Action.hold, confidence := 0 } :=
  ⟨by decide, by decide,
   C4_amended_hold_plurality_zero_confidence (7/10) _ (by decide) (by decide)⟩

/-- C6: when the plurality winner is buy or sell but
`final_confidence = avg_confidence * signal_strength` is below the threshold,
`generate_signal` forces the action to hold while returning that very
`final_confidence`, not zero. -/
theorem C6_threshold_hold_preserves_confidence (thr : ℚ) (ops : List Opinion)
    (hwin : (sellVotes ops < buyVotes ops ∧ holdVotes ops < buyVotes ops) ∨
      (buyVotes ops < sellVotes ops ∧ holdVotes ops < sellVotes ops))
    (hlt : finalConfidence ops < thr) :
    generateSignal thr ops
      = { action := Action.hold, confidence := finalConfidence ops } := by
  have hne : ops.isEmpty = false := by
    cases ops with
    | nil =>
      exfalso
      rcases hwin with ⟨h1, h2⟩ | ⟨h1, h2⟩ <;>
        simp [buyVotes, sellVotes, holdVotes] at h1 h2
    | cons a l => rfl
  simp [generateSignal, hne, hlt]

/-- C6 witness: the single opinion `[buy 0.5]` at threshold 0.7 is the spec's
own example: `final_confidence = 0.5 < 0.7` yields action hold with the
preserved confidence 0.5. -/
theorem C6_threshold_witness :
    (sellVotes [⟨Action.buy, 1/2⟩] < buyVotes [⟨Action.buy, 1/2⟩] ∧
      holdVotes [⟨Action.buy, 1/2⟩] < buyVotes [⟨Action.buy, 1/2⟩]) ∧
    finalConfidence [⟨Action.buy, 1/2⟩] < 7/10 ∧
    finalConfidence [⟨Action.buy, 1/2⟩] = 1/2 ∧
    generateSignal (7/10) [⟨Action.buy, 1/2⟩]
      = { action := Action.hold, confidence := finalConfidence [⟨Action.buy, 1/2⟩] } := by
  have hb : buyVotes [⟨Action.buy, 1/2⟩] = 1 := by decide
  have hcons : consensus [⟨Action.buy, 1/2⟩] = (Action.buy, 1) := by
    unfold consensus
    rw [if_pos (by decide), hb]
    norm_num
  have havg : avgConfidence [⟨Action.buy, 1/2⟩] = 1/2 := by
    norm_num [avgConfidence]
  have hfc : finalConfidence [⟨Action.buy, 1/2⟩] = 1/2 := by
    rw [finalConfidence, havg, hcons]
    norm_num
  refine ⟨⟨by decide, by decide⟩, by rw [hfc]; norm_num, hfc, ?_⟩
  exact C6_threshold_hold_preserves_confidence (7/10) [⟨Action.buy, 1/2⟩]
    (Or.inl ⟨by decide, by decide⟩) (by rw [hfc]; norm_num)

/-- C7: closing a position realizes `(exit-entry)*amount` for a buy and
`(entry-exit)*amount` for a sell, credits `amount*exit_price + pnl` to the
balance, records `pnl_pct = pnl/(entry_price*amount)*100`, and (for a genuine
position, positive entry price and amount) the sign of `pnl_pct` matches the
sign of `pnl`. -/
theorem C7_close_position_bookkeeping (s : State) (p : Position) (price : ℚ)
    (timestamp : ℤ) (he : 0 < p.entry_price) (ha : 0 < p.amount) :
    (closePosition s p price timestamp).trades
      = s.trades ++ [closeTrade p price timestamp] ∧
    (closeTrade p price timestamp).pnl
      = (if p.side = Action.buy then (price - p.entry_price) * p.amount
         else (p.entry_price - price) * p.amount) ∧
    (closePosition s p price timestamp).balance
      = s.balance + p.amount * price + (closeTrade p price timestamp).pnl ∧
    (closeTrade p price timestamp).pnl_pct
      = (closeTrade p price timestamp).pnl / (p.entry_price * p.amount) * 100 ∧
    (0 < (closeTrade p price timestamp).pnl_pct
      ↔ 0 < (closeTrade p price timestamp).pnl) ∧
    ((closeTrade p price timestamp).pnl_pct < 0
      ↔ (closeTrade p price timestamp).pnl < 0) := by
  have hc : 0 < p.entry_price * p.amount := mul_pos he ha
  have hpct : (closeTrade p price timestamp).pnl_pct
      = (closeTrade p price timestamp).pnl / (p.entry_price * p.amount) * 100 := rfl
  refine ⟨rfl, rfl, rfl, hpct, ?_, ?_⟩
  · rw [hpct, div_mul_eq_mul_div, lt_div_iff₀ hc, zero_mul]
    constructor <;> intro h <;> linarith
  · rw [hpct, div_mul_eq_mul_div, div_lt_iff₀ hc, zero_mul]
    constructor <;> intro h <;> linarith

/-- C7 witness: closing a concrete winning buy position (entry 10, amount 2,
exit 11) from a fresh state. -/
theorem C7_close_position_witness :
    0 < (⟨1, Action.buy, 10, 2, 0, 97/10, 21/2⟩ : Position).entry_price ∧
    0 < (⟨1, Action.buy, 10, 2, 0, 97/10, 21/2⟩ : Position).amount ∧
    (closePosition (initState 100) ⟨1, Action.buy, 10, 2, 0, 97/10, 21/2⟩ 11 3600).balance
      = (initState 100).balance + 2 * 11
        + (closeTrade ⟨1, Action.buy, 10, 2, 0, 97/10, 21/2⟩ 11 3600).pnl :=
  ⟨by norm_num, by norm_num,
   (C7_close_position_bookkeeping (initState 100)
     ⟨1, Action.buy, 10, 2, 0, 97/10, 21/2⟩ 11 3600
     (by norm_num) (by norm_num)).2.2.1⟩

/-- C9: the configured cap is a hard ceiling — for every requested risk
fraction (absent, zero, larger than the cap, even negative) the computed
position size is at most `balance * max_position_size`. -/
theorem C9_cap_is_hard_ceiling (cfg : RiskConfig) (balance price : ℚ)
    (f : Option ℚ) (_hb : 0 ≤ balance) :
    calculate_position_size cfg balance price f
      ≤ balance * cfg.max_position_size := by
  simp only [calculate_position_size]
  split_ifs with h
  · exact h
  · exact le_refl _

/-- C9 witness: a requested fraction of 0.9, far above the default 0.2 cap,
still yields at most the cap. -/
theorem C9_cap_witness :
    0 ≤ (100 : ℚ) ∧
    calculate_position_size defaultRiskConfig 100 7 (some (9/10))
      ≤ 100 * defaultRiskConfig.max_position_size :=
  ⟨by norm_num,
   C9_cap_is_hard_ceiling defaultRiskConfig 100 7 (some (9/10)) (by norm_num)⟩

/-- C10: an explicit risk fraction of 0 is falsy in the source's
`risk_percent or self.max_position_size`, so it falls back to the default cap
and the position size is the full `balance * max_position_size`, not zero. -/
theorem C10_zero_fraction_falls_back_to_cap (cfg : RiskConfig)
    (balance price : ℚ) (_hb : 0 ≤ balance) :
    calculate_position_size cfg balance price (some 0)
      = balance * cfg.max_position_size := by
  simp [calculate_position_size]

/-- C10 witness: balance 50 at the default configuration, requested fraction
0, yields `50 * 0.2 = 10`. -/
theorem C10_zero_fraction_witness :
    0 ≤ (50 : ℚ) ∧
    calculate_position_size defaultRiskConfig 50 3 (some 0)
      = 50 * defaultRiskConfig.max_position_size :=
  ⟨by norm_num,
   C10_zero_fraction_falls_back_to_cap defaultRiskConfig 50 3 (by norm_num)⟩

/-- `_close_position` never touches the equity curve. -/
lemma closePosition_equity (s : State) (p : Position) (price : ℚ) (t : ℤ) :
    (closePosition s p price t).equity = s.equity := rfl

/-- Closing a batch of positions never touches the equity curve. -/
lemma foldl_closePosition_equity (price : ℚ) (t : ℤ) (l : List Position) :
    ∀ s : State,
      (l.foldl (fun st p => closePosition st p price t) s).equity = s.equity := by
  induction l with
  | nil => intro s; rfl
  | cons p ps ih =>
    intro s
    rw [List.foldl_cons, ih]
    exact closePosition_equity s p price t

/-- `_check_exit_conditions` never touches the equity curve. -/
lemma checkExitConditions_equity (cfg : RiskConfig) (s : State) (price : ℚ)
    (t : ℤ) : (checkExitConditions cfg s price t).equity = s.equity :=
  foldl_closePosition_equity price t _ s

/-- `_execute_trade` never touches the equity curve. -/
lemma executeTrade_equity (cfg : RiskConfig) (s : State) (sig : Signal)
    (price : ℚ) (t : ℤ) : (executeTrade cfg s sig price t).equity = s.equity := by
  simp only [executeTrade]
  split_ifs <;> rfl

/-- The exit-check / entry phase of a bar never touches the equity curve. -/
lemma tradePhase_equity (cfg : RiskConfig) (thr : ℚ) (sigf : List Bar → Signal)
    (hist : List Bar) (s : State) (b : Bar) :
    (tradePhase cfg thr sigf hist s b).equity = s.equity := by
  simp only [tradePhase]
  split_ifs
  · rw [executeTrade_equity, checkExitConditions_equity]
  · rw [checkExitConditions_equity]

/-- Processing one bar appends exactly one equity entry: the balance plus
the signed unrealized PnL of the open positions after that bar's exit check
and entry, marked at that bar's close. -/
lemma processBar_equity (cfg : RiskConfig) (thr : ℚ) (sigf : List Bar → Signal)
    (hist : List Bar) (s : State) (b : Bar) :
    (processBar cfg thr sigf hist s b).equity
      = s.equity ++ [(tradePhase cfg thr sigf hist s b).balance
          + unrealizedSum (tradePhase cfg thr sigf hist s b).positions b.close] := by
  unfold processBar updateEquity markToMarket
  rw [tradePhase_equity]

/-- The backtest loop appends exactly one equity entry per processed bar. -/
lemma runLoop_equity (cfg : RiskConfig) (thr : ℚ) (sigf : List Bar → Signal) :
    ∀ (rest hist : List Bar) (s : State), ∃ l : List ℚ,
      l.length = rest.length ∧
      (runLoop cfg thr sigf hist rest s).equity = s.equity ++ l := by
  intro rest
  induction rest with
  | nil =>
    intro hist s
    exact ⟨[], rfl, (List.append_nil s.equity).symm⟩
  | cons b bs ih =>
    intro hist s
    obtain ⟨l, hlen, heq⟩ :=
      ih (hist ++ [b]) (processBar cfg thr sigf (hist ++ [b]) s b)
    refine ⟨((tradePhase cfg thr sigf (hist ++ [b]) s b).balance
        + unrealizedSum (tradePhase cfg thr sigf (hist ++ [b]) s b).positions b.close)
        :: l, by simp [hlen], ?_⟩
    rw [runLoop, heq, processBar_equity]
    simp

/-- The forced-liquidation loop never touches the equity curve. -/
lemma forceCloseGo_equity (price : ℚ) (t : ℤ) :
    ∀ (fuel i : ℕ) (s : State), (forceCloseGo price t fuel i s).equity = s.equity := by
  intro fuel
  induction fuel with
  | zero => intro i s; rfl
  | succ n ih =>
    intro i s
    rw [forceCloseGo]
    split
    · rw [ih]
      exact closePosition_equity _ _ price t
    · rfl

/-- The forced liquidation at the end of a run never touches the equity
curve. -/
lemma forceClose_equity (s : State) (price : ℚ) (t : ℤ) :
    (forceClose s price t).equity = s.equity :=
  forceCloseGo_equity price t _ 0 s

/-- C8: after a completed run over `n ≥ 50` bars, the equity curve of the
backtester state has length `(n - 50) + 1`, starts with the seed
`initial_balance`, and each loop iteration appends exactly one entry equal to
the post-entry balance plus the signed unrealized PnL of the open positions
at that bar's close. -/
theorem C8_equity_curve_shape (cfg : RiskConfig) (thr : ℚ)
    (sigf : List Bar → Signal) (initial : ℚ) (bars : List Bar)
    (h : 50 ≤ bars.length) :
    (runBacktestState cfg thr sigf initial bars).equity.length
      = bars.length - 50 + 1 ∧
    (runBacktestState cfg thr sigf initial bars).equity.head? = some initial ∧
    ∀ (hist : List Bar) (s : State) (b : Bar),
      (processBar cfg thr sigf hist s b).equity
        = s.equity ++ [(tradePhase cfg thr sigf hist s b).balance
            + unrealizedSum (tradePhase cfg thr sigf hist s b).positions b.close] := by
  have hnot : ¬ bars.length < 50 := not_lt.mpr h
  obtain ⟨l, hlen, heq⟩ :=
    runLoop_equity cfg thr sigf (bars.drop 50) (bars.take 50) (initState initial)
  have hstate : (runBacktestState cfg thr sigf initial bars).equity
      = initial :: l := by
    unfold runBacktestState
    rw [if_neg hnot, forceClose_equity, heq]
    rfl
  refine ⟨?_, ?_, fun hist s b => processBar_equity cfg thr sigf hist s b⟩
  · rw [hstate]
    simp [hlen]
  · rw [hstate]
    rfl

/-- C8 witness: the minimal complete run, exactly 50 bars (so zero processed
bars), has an equity curve of length 1 headed by the seed. -/
theorem C8_equity_curve_witness :
    50 ≤ (List.replicate 50 ({ time := 0, close := 1 } : Bar)).length ∧
    (runBacktestState defaultRiskConfig (7/10)
        (fun _ => { action := Action.hold, confidence := 0 }) 1000
        (List.replicate 50 { time := 0, close := 1 })).equity.length
      = (List.replicate 50 ({ time := 0, close := 1 } : Bar)).length - 50 + 1 :=
  ⟨by simp,
   (C8_equity_curve_shape defaultRiskConfig (7/10)
     (fun _ => { action := Action.hold, confidence := 0 }) 1000
     (List.replicate 50 { time := 0, close := 1 }) (by simp)).1⟩

/-- A buy action is not a hold action (rewrite form, for evaluating the
branch conditions of concrete runs). -/
lemma buy_eq_hold_eq_false : (Action.buy = Action.hold) = False := by simp

/-- A strategy stub that always reports a fully confident buy, modelling a
run in which every bar produces an executable buy signal. -/
def constBuySignal : List Bar → Signal :=
  fun _ => { action := Action.buy, confidence := 1 }

/-- 52 bars at constant price 1 (52 ≥ 51 processed-bar minimum): the loop
processes the bars at indices 50 and 51 and, with `constBuySignal`, opens one
position on each, so two positions are simultaneously open when the run
ends. -/
def c1bars : List Bar :=
  List.replicate 50 { time := 0, close := 1 }
    ++ [{ time := 50, close := 1 }, { time := 51, close := 1 }]

/-- C1 (status code_bug): evaluating the run on `c1bars`.  Two positions are
open after the last processed bar, but the forced-liquidation loop iterates
over the very list that `_close_position` mutates, so it closes only the
position at the first iterator index: the run ends with one position still
open and the closed-trades list containing only the trade with id 1 — the
position with id 2 never appears in the trades, contradicting the claim that
every still-open position is closed exactly once at the last bar. -/
theorem C1_forced_liquidation_skips_position :
    (runLoop defaultRiskConfig (7/10) constBuySignal (c1bars.take 50)
      (c1bars.drop 50) (initState 1000)).positions.length = 2 ∧
    (runBacktestState defaultRiskConfig (7/10) constBuySignal 1000
      c1bars).positions.length = 1 ∧
    (runBacktestState defaultRiskConfig (7/10) constBuySignal 1000
      c1bars).trades.map (fun tr => tr.id) = [1] := by
  have hbar50 : ∀ hist : List Bar,
      processBar defaultRiskConfig (7/10) constBuySignal hist (initState 1000)
        { time := 50, close := 1 }
      = { balance := 800,
          positions := [⟨1, Action.buy, 1, 200, 50, 97/100, 21/20⟩],
          trades := [], equity := [1000, 800] } := by
    intro hist
    norm_num [processBar, tradePhase, checkExitConditions, shouldExecuteTrade,
      executeTrade, calculate_position_size, validate_order,
      calculate_stop_loss_price, calculate_take_profit_price, updateEquity,
      markToMarket, unrealizedSum, constBuySignal, initState, defaultRiskConfig,
      buy_eq_hold_eq_false]
  have hbar51 : ∀ hist : List Bar,
      processBar defaultRiskConfig (7/10) constBuySignal hist
        { balance := 800,
          positions := [⟨1, Action.buy, 1, 200, 50, 97/100, 21/20⟩],
          trades := [], equity := [1000, 800] }
        { time := 51, close := 1 }
      = { balance := 640,
          positions := [⟨1, Action.buy, 1, 200, 50, 97/100, 21/20⟩,
            ⟨2, Action.buy, 1, 160, 51, 97/100, 21/20⟩],
          trades := [], equity := [1000, 800, 640] } := by
    intro hist
    norm_num [processBar, tradePhase, checkExitConditions, check_stop_loss,
      check_take_profit, calculate_stop_loss_price, calculate_take_profit_price,
      shouldExecuteTrade, executeTrade, calculate_position_size, validate_order,
      updateEquity, markToMarket, unrealizedSum, constBuySignal,
      defaultRiskConfig, List.filter_cons, buy_eq_hold_eq_false]
  have hdrop : c1bars.drop 50
      = [{ time := 50, close := 1 }, { time := 51, close := 1 }] := by
    simp [c1bars, List.drop_left']
  have hloop : runLoop defaultRiskConfig (7/10) constBuySignal (c1bars.take 50)
      (c1bars.drop 50) (initState 1000)
      = { balance := 640,
          positions := [⟨1, Action.buy, 1, 200, 50, 97/100, 21/20⟩,
            ⟨2, Action.buy, 1, 160, 51, 97/100, 21/20⟩],
          trades := [], equity := [1000, 800, 640] } := by
    rw [hdrop]
    simp only [runLoop]
    rw [hbar50, hbar51]
  have hlast : c1bars.getLastD { time := 0, close := 0 }
      = { time := 51, close := 1 } := by
    simp [c1bars, List.getLastD_eq_getLast?, List.getLast?_append]
  have hlen : ¬ c1bars.length < 50 := by simp [c1bars]
  have hstate : runBacktestState defaultRiskConfig (7/10) constBuySignal 1000 c1bars
      = { balance := 840,
          positions := [⟨2, Action.buy, 1, 160, 51, 97/100, 21/20⟩],
          trades := [⟨1, Action.buy, 1, 1, 200, 0, 0, 50, 51, 1/3600⟩],
          equity := [1000, 800, 640] } := by
    unfold runBacktestState
    rw [if_neg hlen, hloop, hlast]
    norm_num [forceClose, forceCloseGo, closePosition, closeTrade,
      List.erase_cons]
  exact ⟨by rw [hloop]; rfl, by rw [hstate]; rfl, by rw [hstate]; rfl⟩

/-- A malformed 51-bar input: the last bar repeats the timestamp 0 of the
first 50 bars (non-monotonic index) and carries the non-positive close
price -1. -/
def c5bars : List Bar :=
  List.replicate 50 { time := 0, close := 1 } ++ [{ time := 0, close := -1 }]

/-- Evaluating the full `run_backtest` on the malformed `c5bars` under an
always-buy strategy: no precondition is checked, the bar with close -1 is
traded like any other (a buy of 200 units at price -1, which *adds* its
negative cost to the balance), and an ordinary result is returned claiming a
20% total return with zero realized PnL. -/
lemma c5_run_result :
    runBacktest defaultRiskConfig (7/10) constBuySignal 1000 c5bars
      = { total_return := 20, total_pnl := 0, initial_balance := 1000,
          final_balance := 1200, total_trades := 1, winning_trades := 0,
          losing_trades := 1, win_rate := 0, avg_win := 0, avg_loss := 0,
          profit_factor := 0, max_drawdown := 0,
          equity_curve := [1000, 1200],
          trades := [⟨1, Action.buy, -1, -1, 200, 0, 0, 0, 0, 0⟩] } := by
  have hbar : ∀ hist : List Bar,
      processBar defaultRiskConfig (7/10) constBuySignal hist (initState 1000)
        { time := 0, close := -1 }
      = { balance := 1200,
          positions := [⟨1, Action.buy, -1, 200, 0, -97/100, -21/20⟩],
          trades := [], equity := [1000, 1200] } := by
    intro hist
    norm_num [processBar, tradePhase, checkExitConditions, shouldExecuteTrade,
      executeTrade, calculate_position_size, validate_order,
      calculate_stop_loss_price, calculate_take_profit_price, updateEquity,
      markToMarket, unrealizedSum, constBuySignal, initState, defaultRiskConfig,
      buy_eq_hold_eq_false]
  have hdrop : c5bars.drop 50 = [{ time := 0, close := -1 }] := by
    simp [c5bars, List.drop_left']
  have hloop : runLoop defaultRiskConfig (7/10) constBuySignal (c5bars.take 50)
      (c5bars.drop 50) (initState 1000)
      = { balance := 1200,
          positions := [⟨1, Action.buy, -1, 200, 0, -97/100, -21/20⟩],
          trades := [], equity := [1000, 1200] } := by
    rw [hdrop]
    simp only [runLoop]
    rw [hbar]
  have hlast : c5bars.getLastD { time := 0, close := 0 }
      = { time := 0, close := -1 } := by
    simp [c5bars, List.getLastD_eq_getLast?, List.getLast?_append]
  have hlen : ¬ c5bars.length < 50 := by simp [c5bars]
  have hstate : runBacktestState defaultRiskConfig (7/10) constBuySignal 1000 c5bars
      = { balance := 1000, positions := [],
          trades := [⟨1, Action.buy, -1, -1, 200, 0, 0, 0, 0, 0⟩],
          equity := [1000, 1200] } := by
    unfold runBacktestState
    rw [if_neg hlen, hloop, hlast]
    norm_num [forceClose, forceCloseGo, closePosition, closeTrade,
      List.erase_cons]
  unfold runBacktest
  rw [if_neg hlen, hstate]
  norm_num [calcMetrics, runningMax, runningMaxGo, listMinD,
    List.getLastD_eq_getLast?, List.filter_cons, max_def]

/-- C5 counterexample: on a malformed input (repeated timestamp, negative
close) `run_backtest` does not fail fast with a descriptive error — it
returns an ordinary `BacktestResult` with one trade and a reported 20% total
return (silently wrong: the realized PnL is 0 and the final balance of the
run equals the initial 1000). -/
theorem C5_counterexample_result_on_malformed_input :
    (runBacktest defaultRiskConfig (7/10) constBuySignal 1000 c5bars).total_trades = 1 ∧
    (runBacktest defaultRiskConfig (7/10) constBuySignal 1000 c5bars).total_return = 20 ∧
    (runBacktest defaultRiskConfig (7/10) constBuySignal 1000 c5bars).total_pnl = 0 ∧
    (runBacktest defaultRiskConfig (7/10) constBuySignal 1000 c5bars).final_balance = 1200 := by
  rw [c5_run_result]
  exact ⟨rfl, rfl, rfl, rfl⟩

/-- C5 (status corrected, amended): `run_backtest` performs no up-front
validation at all — the malformed bar is consumed as ordinary data: the
returned result records a trade entered at the non-positive price -1 and an
equity curve that marched right through the malformed bar, instead of any
descriptive error. -/
theorem C5_amended_no_upfront_validation :
    (runBacktest defaultRiskConfig (7/10) constBuySignal 1000 c5bars).trades.map
      (fun tr => tr.entry_price) = [-1] ∧
    (runBacktest defaultRiskConfig (7/10) constBuySignal 1000 c5bars).equity_curve
      = [1000, 1200] := by
  rw [c5_run_result]
  exact ⟨rfl, rfl⟩

end Pishgoo
